import Mathlib

/-!
Shallow embedding of `src/legacy/legacy-invoice-script.py` (Invoice Processing
Script v1.3).  Monetary values and rates are modelled as rationals (`ℚ`),
Python ints as `ℤ`/`ℕ`.  Ambient reads of `datetime.datetime.now()` are
threaded as explicit parameters (`month`, `now`), rendering the calculation
functions pure, as they are in the script up to that ambient read.
-/

namespace Invoice

/-- STATE_TAX_RATES (script lines 30-37): state → rate, incl. the DEFAULT entry. -/
def STATE_TAX_RATES : List (String × ℚ) :=
  [("CA", 725/10000), ("NY", 8/100), ("TX", 625/10000), ("FL", 6/100),
   ("WA", 65/1000), ("DEFAULT", 5/100)]

/-- CUSTOMER_TAX_OVERRIDES (script lines 40-44): customer id → negotiated rate. -/
def CUSTOMER_TAX_OVERRIDES : List (String × ℚ) :=
  [("CUST001", 0), ("CUST447", 45/1000), ("CUST892", 725/10000)]

/-- Python dict lookup `table[k]` / membership `k in table`, as an association
list lookup (the script dicts have distinct keys, so this is faithful). -/
def lookup (table : List (String × ℚ)) (k : String) : Option ℚ :=
  table.lookup k

/-- LATE_FEE_DAYS (script line 47). -/
def LATE_FEE_DAYS : ℤ := 30

/-- LATE_FEE_PERCENT (script line 48): 1.5% monthly. -/
def LATE_FEE_PERCENT : ℚ := 15/1000

/-- MIN_INVOICE_AMOUNT (script line 49). -/
def MIN_INVOICE_AMOUNT : ℚ := 25

/-- BULK_DISCOUNT_THRESHOLD (script line 50). -/
def BULK_DISCOUNT_THRESHOLD : ℚ := 10000

/-- BULK_DISCOUNT_RATE (script line 51): 3% discount. -/
def BULK_DISCOUNT_RATE : ℚ := 3/100

/-- The invoice dict built by `process_csv_file` (script lines 86-97). -/
structure InvoiceRecord where
  customer_id : String
  customer_name : String
  address : String
  city : String
  state : String
  zip : String
  amount : ℚ
  invoice_date : String
  due_date : String
  items : String
deriving DecidableEq, Repr

/-- Python 2 `round(x, 2)`: round to 2 decimal places, ties away from zero
(Python 2 `round` rounds half away from zero; every value the script rounds
is non-negative, where this is the same as half-up). -/
def round2 (q : ℚ) : ℚ :=
  if 0 ≤ q then ((⌊q * 100 + 1/2⌋ : ℤ) : ℚ) / 100
  else -(((⌊(-q) * 100 + 1/2⌋ : ℤ) : ℚ) / 100)

/-- Tax-rate resolution of `calculate_tax` before the Q4 adjustment
(script lines 127-134): customer override, else state rate, else
`STATE_TAX_RATES['DEFAULT']` (present in the table, so `getD 0` never fires). -/
def resolved_rate (customer_id state : String) : ℚ :=
  match lookup CUSTOMER_TAX_OVERRIDES customer_id with
  | some r => r
  | none =>
    match lookup STATE_TAX_RATES state with
    | some r => r
    | none => (lookup STATE_TAX_RATES "DEFAULT").getD 0

/-- The rate after the Q4 seasonal adjustment (script lines 136-140):
`if current_month >= 10: tax_rate = tax_rate * 1.02`.  `month` is
`datetime.datetime.now().month`, threaded explicitly. -/
def effective_rate (customer_id state : String) (month : ℕ) : ℚ :=
  if 10 ≤ month then resolved_rate customer_id state * (102/100)
  else resolved_rate customer_id state

/-- The taxable base of `calculate_tax` (script lines 142-144): bulk discount
applied to the taxable amount when `base_amount >= BULK_DISCOUNT_THRESHOLD`. -/
def taxable_base (amount : ℚ) : ℚ :=
  if BULK_DISCOUNT_THRESHOLD ≤ amount then amount * (1 - BULK_DISCOUNT_RATE)
  else amount

/-- The function `calculate_tax` (script lines 118-146), with the ambient current month
passed explicitly: resolve the rate (override / state / default), apply the
Q4 multiplier, discount the base, and round to cents. -/
def calculate_tax (inv : InvoiceRecord) (month : ℕ) : ℚ :=
  round2 (taxable_base inv.amount * effective_rate inv.customer_id inv.state month)

/-- A calendar date, as produced by `datetime.datetime.strptime` (time 00:00). -/
structure Date where
  year : ℕ
  month : ℕ
  day : ℕ
deriving DecidableEq, Repr

/-- Gregorian leap-year rule used by `datetime`. -/
def isLeapYear (y : ℕ) : Bool :=
  (y % 4 == 0 && y % 100 != 0) || (y % 400 == 0)

/-- Days in a month, used to validate a parsed day as `strptime` does
(constructing a `datetime` rejects e.g. Feb 30). -/
def daysInMonth (y m : ℕ) : ℕ :=
  if m == 2 then (if isLeapYear y then 29 else 28)
  else if m == 4 || m == 6 || m == 9 || m == 11 then 30
  else 31

/-- Validity check applied by `datetime.datetime(year, month, day)`:
month 1-12, day 1-days_in_month, year 1-9999. -/
def mkValidDate (y m d : ℕ) : Option Date :=
  if 1 ≤ m && m ≤ 12 && 1 ≤ d && d ≤ daysInMonth y m && 1 ≤ y && y ≤ 9999
  then some ⟨y, m, d⟩ else none

/-! Python string primitives, modelled structurally over `List Char` (the
core `String` routines recurse on byte positions, which a proof cannot
compute with; these definitions mirror the Python semantics directly). -/

/-- The whitespace removed by Python `str.strip()`. -/
def isSpaceChar (c : Char) : Bool :=
  c == ' ' || c == '\t' || c == '\n' || c == '\r' || c == '\x0b' || c == '\x0c'

/-- Python `str.strip()` on a character list. -/
def pyStripList (l : List Char) : List Char :=
  ((l.dropWhile isSpaceChar).reverse.dropWhile isSpaceChar).reverse

/-- Python `s.strip()`. -/
def pyStrip (s : String) : String := String.mk (pyStripList s.data)

/-- Python `s.upper()` (ASCII, as in the script's state codes). -/
def pyUpper (s : String) : String := String.mk (s.data.map Char.toUpper)

/-- Split a character list at every occurrence of `sep`; the result is
always non-empty (Python `str.split(sep)` for a one-character separator,
and the `csv.reader` field split — quoting is outside the model, no claim
depends on quoted fields). -/
def splitOnCharList (sep : Char) : List Char → List (List Char)
  | [] => [[]]
  | c :: rest =>
    match splitOnCharList sep rest with
    | [] => [[c]]
    | cur :: parts =>
      if c == sep then [] :: cur :: parts
      else (c :: cur) :: parts

/-- Python `s.split(sep)` for a one-character separator. -/
def pySplit (sep : Char) (s : String) : List String :=
  (splitOnCharList sep s.data).map String.mk

/-- Value of a digit string (caller guarantees all digits). -/
def digitsToNat (l : List Char) : ℕ :=
  l.foldl (fun acc c => acc * 10 + (c.toNat - 48)) 0

/-- Non-empty and all ASCII digits. -/
def allDigits (l : List Char) : Bool :=
  !l.isEmpty && l.all Char.isDigit

/-- CPython strptime directive `%m` (TimeRE regex `1[0-2]|0[1-9]|[1-9]`):
one or two digits with value 1-12; a longer run of digits leaves
unconverted data and raises ValueError, modelled as `none`. -/
def monthField (s : String) : Option ℕ :=
  if allDigits s.data && s.data.length ≤ 2 then
    let v := digitsToNat s.data
    if 1 ≤ v && v ≤ 12 then some v else none
  else none

/-- CPython strptime directive `%d` (TimeRE regex
`3[01]|[12]\d|0[1-9]|[1-9]`): one or two digits with value 1-31. -/
def dayField (s : String) : Option ℕ :=
  if allDigits s.data && s.data.length ≤ 2 then
    let v := digitsToNat s.data
    if 1 ≤ v && v ≤ 31 then some v else none
  else none

/-- CPython strptime directive `%Y` (TimeRE regex `\d\d\d\d`): exactly
four digits; a two-digit year like `"21"` does not match. -/
def yearField (s : String) : Option ℕ :=
  if allDigits s.data && s.data.length == 4 then some (digitsToNat s.data)
  else none

/-- Python `strptime(s, '%m/%d/%Y')` as an `Option`: month/day/year
separated by slashes, each component matching its directive's digit-count
and value constraints, the result a valid calendar date. -/
def strptime_mdY_slash (s : String) : Option Date :=
  match pySplit '/' s with
  | [m, d, y] => do
    let mv ← monthField m
    let dv ← dayField d
    let yv ← yearField y
    mkValidDate yv mv dv
  | _ => none

/-- Python `strptime(s, '%Y-%m-%d')` as an `Option`. -/
def strptime_Ymd_dash (s : String) : Option Date :=
  match pySplit '-' s with
  | [y, m, d] => do
    let yv ← yearField y
    let mv ← monthField m
    let dv ← dayField d
    mkValidDate yv mv dv
  | _ => none

/-- Python `strptime(s, '%m-%d-%Y')` as an `Option`. -/
def strptime_mdY_dash (s : String) : Option Date :=
  match pySplit '-' s with
  | [m, d, y] => do
    let mv ← monthField m
    let dv ← dayField d
    let yv ← yearField y
    mkValidDate yv mv dv
  | _ => none

/-- The ordered-format date parse of `calculate_late_fee` (script lines
157-166): try `%m/%d/%Y`, then `%Y-%m-%d`, then `%m-%d-%Y`; first success
wins; `none` models the for-else branch (no format parses). -/
def parse_due_date (s : String) : Option Date :=
  match strptime_mdY_slash s with
  | some d => some d
  | none =>
    match strptime_Ymd_dash s with
    | some d => some d
    | none => strptime_mdY_dash s

/-- Rata-die day number of a date (days-from-civil); `(now - due_date).days`
is the difference of the two day numbers since both datetimes are at
midnight resp. whole-day precision in the model. -/
def toRataDie (dt : Date) : ℤ :=
  let m : ℤ := dt.month
  let d : ℤ := dt.day
  let y : ℤ := (dt.year : ℤ) - (if m ≤ 2 then 1 else 0)
  let era : ℤ := Int.fdiv y 400
  let yoe : ℤ := y - era * 400
  let mp : ℤ := (m + 9) % 12
  let doy : ℤ := Int.fdiv (153 * mp + 2) 5 + d - 1
  let doe : ℤ := yoe * 365 + Int.fdiv yoe 4 - Int.fdiv yoe 100 + doy
  era * 146097 + doe - 719468

/-- The fee computation of `calculate_late_fee` given `days_late` (script
lines 170-179): zero unless `days_late > LATE_FEE_DAYS`, otherwise
`round(amount * (LATE_FEE_PERCENT * months_late), 2)` where
`months_late = days_late / 30` is Python 2 integer (floor) division. -/
def late_fee_from_days (amount : ℚ) (days_late : ℤ) : ℚ :=
  if LATE_FEE_DAYS < days_late then
    round2 (amount * (LATE_FEE_PERCENT * (Int.fdiv days_late 30 : ℤ)))
  else 0

/-- The function `calculate_late_fee` (script lines 148-179), with the ambient
`datetime.datetime.now()` passed explicitly as `now`: if no date format
parses the due date, return 0 (for-else, lines 164-166); otherwise compute
`days_late = (now - due_date).days` and the fee. -/
def calculate_late_fee (inv : InvoiceRecord) (now : Date) : ℚ :=
  match parse_due_date inv.due_date with
  | none => 0
  | some due => late_fee_from_days inv.amount (toRataDie now - toRataDie due)

/-- The total computed by `generate_pdf` (script line 185):
`total = invoice['amount'] + tax_amount + late_fee`, exact (no rounding). -/
def invoice_total (inv : InvoiceRecord) (tax_amount late_fee : ℚ) : ℚ :=
  inv.amount + tax_amount + late_fee

/-! ## Record parser and batch reader (`process_csv_file`, script lines 58-116) -/

/-- Why a row is skipped by the `process_csv_file` loop.  The script has no
named reasons (it prints and continues); these name its three skip paths:
fewer than 10 columns (line 81), `float(row[6])` raising `ValueError`
(lines 93/107), amount below `MIN_INVOICE_AMOUNT` (line 100). -/
inductive RejectReason where
  | InsufficientColumns
  | InvalidAmount
  | BelowMinimum
deriving DecidableEq, Repr

/-- Which skip paths call `log_error` (write the error-log file) rather than
only printing a console warning: only the `ValueError` path does (script line
109); insufficient columns (line 82) and below-minimum (lines 101-103) print
warnings without logging. -/
def logged_as_error : RejectReason → Bool
  | RejectReason.InvalidAmount => true
  | _ => false

/-- Sign prefix of a Python numeric literal: `(isNegative, rest)`. -/
def splitSign : List Char → Bool × List Char
  | '-' :: rest => (true, rest)
  | '+' :: rest => (false, rest)
  | l => (false, l)

/-- Signed decimal integer, as accepted for a float exponent. -/
def parse_exp_int (l : List Char) : Option ℤ :=
  let (neg, b) := splitSign l
  if allDigits b then some (if neg then -(digitsToNat b : ℤ) else (digitsToNat b : ℤ))
  else none

/-- Unsigned mantissa of a Python float literal: digits with an optional
decimal point (`"5"`, `"5."`, `".5"`, `"3.14"`; a bare `"."` is invalid). -/
def parse_mantissa (l : List Char) : Option ℚ :=
  match splitOnCharList '.' l with
  | [w] => if allDigits w then some (digitsToNat w : ℚ) else none
  | [w, f] =>
    if w.isEmpty && f.isEmpty then none
    else if w.all Char.isDigit && f.all Char.isDigit then
      some ((digitsToNat w : ℚ) + (digitsToNat f : ℚ) / (10 ^ f.length))
    else none
  | _ => none

/-- Python `float(s)` as an `Option ℚ` (`none` models `ValueError`):
surrounding whitespace stripped, optional sign, decimal mantissa, optional
`e`/`E` exponent.  IEEE special values (`inf`, `nan`) have no rational
value and are outside the model; no claim depends on them. -/
def parse_float (s : String) : Option ℚ :=
  let (neg, b) := splitSign (pyStripList s.data)
  let magnitude : Option ℚ :=
    match splitOnCharList 'e' b with
    | [m, ex] => do
      let mv ← parse_mantissa m
      let ev ← parse_exp_int ex
      pure (mv * (10 : ℚ) ^ ev)
    | [m] =>
      match splitOnCharList 'E' m with
      | [m2, ex] => do
        let mv ← parse_mantissa m2
        let ev ← parse_exp_int ex
        pure (mv * (10 : ℚ) ^ ev)
      | [m2] => parse_mantissa m2
      | _ => none
    | _ => none
  magnitude.map (fun q => if neg then -q else q)

/-- Outcome of the per-row body of the `process_csv_file` loop. -/
inductive RowResult where
  | ok (inv : InvoiceRecord)
  | reject (reason : RejectReason)
deriving DecidableEq, Repr

/-- The per-row body of the `process_csv_file` loop (script lines 80-105):
skip rows with fewer than 10 columns; build the invoice dict (`.strip()` on
text fields, `.strip().upper()` on state, `float` on the amount, a
`ValueError` skipping the row); skip amounts below `MIN_INVOICE_AMOUNT`. -/
def parse_row (row : List String) : RowResult :=
  if row.length < 10 then RowResult.reject RejectReason.InsufficientColumns
  else
    match parse_float (row.getD 6 "") with
    | none => RowResult.reject RejectReason.InvalidAmount
    | some amt =>
      let inv : InvoiceRecord :=
        { customer_id := pyStrip (row.getD 0 "")
          customer_name := pyStrip (row.getD 1 "")
          address := pyStrip (row.getD 2 "")
          city := pyStrip (row.getD 3 "")
          state := pyUpper (pyStrip (row.getD 4 ""))
          zip := pyStrip (row.getD 5 "")
          amount := amt
          invoice_date := pyStrip (row.getD 7 "")
          due_date := pyStrip (row.getD 8 "")
          items := pyStrip (row.getD 9 "") }
      if inv.amount < MIN_INVOICE_AMOUNT then RowResult.reject RejectReason.BelowMinimum
      else RowResult.ok inv

/-- The row loop of `process_csv_file` (script lines 80-109) over the data
rows, with `n` the `enumerate` counter (0 for the first row after the
header): accumulates the appended invoices and, for each skipped row, its
row number and reason (modelling the printed warnings / logged errors). -/
def parse_rows : List (List String) → ℕ → List InvoiceRecord × List (ℕ × RejectReason)
  | [], _ => ([], [])
  | row :: rest, n =>
    let tail := parse_rows rest (n + 1)
    match parse_row row with
    | RowResult.ok inv => (inv :: tail.1, tail.2)
    | RowResult.reject r => (tail.1, (n, r) :: tail.2)

/-- Delimiter auto-detection (script lines 71-74): semicolon if the first
line contains one, else comma. -/
def detect_delimiter (first_line : String) : Char :=
  if first_line.data.contains ';' then ';' else ','

/-- One CSV line split by the detected delimiter (`csv.reader`; quoting is
outside the model — no claim depends on quoted fields). -/
def split_row (delim : Char) (line : String) : List String :=
  pySplit delim line

/-- The function `process_csv_file` (script lines 58-116).  A source is `none` when the
file cannot be opened, otherwise its raw lines.  Any failure to open or read
reaches the outer `except` (lines 111-114), which logs and calls
`sys.exit(1)` — modelled as `Except.error`; this includes an empty file,
whose `reader.next()` raises `StopIteration` into the same handler.
Otherwise the first line fixes the delimiter and is skipped as the header,
and the remaining rows run through the row loop. -/
def process_csv_file (source : Option (List String)) :
    Except String (List InvoiceRecord × List (ℕ × RejectReason)) :=
  match source with
  | none => Except.error "Cannot read file"
  | some [] => Except.error "Cannot read file"
  | some (first :: rest) =>
    let delim := detect_delimiter first
    Except.ok (parse_rows (rest.map (split_row delim)) 0)

/-- The per-file loop of `main` (script lines 330-334) restricted to reading:
processes each discovered source in order through `process_csv_file`.
Because a read failure calls `sys.exit(1)`, an erroring source aborts the
whole run and no later source is processed. -/
def run_batches : List (Option (List String)) → Except String (List (List InvoiceRecord))
  | [] => Except.ok []
  | s :: rest =>
    match process_csv_file s with
    | Except.error e => Except.error e
    | Except.ok (invs, _) =>
      match run_batches rest with
      | Except.error e => Except.error e
      | Except.ok more => Except.ok (invs :: more)

/-! ## Helper lemmas -/

theorem round2_of_nonneg {q : ℚ} (h : 0 ≤ q) :
    round2 q = ((⌊q * 100 + 1/2⌋ : ℤ) : ℚ) / 100 := by
  simp [round2, h]

theorem round2_nonneg {q : ℚ} (h : 0 ≤ q) : 0 ≤ round2 q := by
  rw [round2_of_nonneg h]
  have h1 : (0 : ℤ) ≤ ⌊q * 100 + 1/2⌋ := Int.le_floor.mpr (by push_cast; linarith)
  have h2 : (0 : ℚ) ≤ ((⌊q * 100 + 1/2⌋ : ℤ) : ℚ) := by exact_mod_cast h1
  linarith

theorem round2_pos {q : ℚ} (h : 3/8 ≤ q) : 0 < round2 q := by
  have h0 : (0 : ℚ) ≤ q := le_trans (by norm_num) h
  rw [round2_of_nonneg h0]
  have h1 : (38 : ℤ) ≤ ⌊q * 100 + 1/2⌋ := Int.le_floor.mpr (by push_cast; linarith)
  have h2 : (38 : ℚ) ≤ ((⌊q * 100 + 1/2⌋ : ℤ) : ℚ) := by exact_mod_cast h1
  linarith

theorem lookup_overrides_nonneg {cid : String} {r : ℚ}
    (h : lookup CUSTOMER_TAX_OVERRIDES cid = some r) : 0 ≤ r := by
  simp only [lookup, CUSTOMER_TAX_OVERRIDES, List.lookup] at h
  repeat' split at h
  all_goals simp_all
  all_goals norm_num [← h]

theorem lookup_states_nonneg {st : String} {r : ℚ}
    (h : lookup STATE_TAX_RATES st = some r) : 0 ≤ r := by
  simp only [lookup, STATE_TAX_RATES, List.lookup] at h
  repeat' split at h
  all_goals simp_all
  all_goals norm_num [← h]

theorem resolved_rate_nonneg (cid st : String) : 0 ≤ resolved_rate cid st := by
  unfold resolved_rate
  split
  next r hc => exact lookup_overrides_nonneg hc
  next hc =>
    split
    next r hs => exact lookup_states_nonneg hs
    next hs =>
      rw [show lookup STATE_TAX_RATES "DEFAULT" = some (5/100) from rfl]
      norm_num

theorem effective_rate_nonneg (cid st : String) (m : ℕ) :
    0 ≤ effective_rate cid st m := by
  unfold effective_rate
  split
  · exact mul_nonneg (resolved_rate_nonneg cid st) (by norm_num)
  · exact resolved_rate_nonneg cid st

theorem taxable_base_nonneg {a : ℚ} (h : 0 ≤ a) : 0 ≤ taxable_base a := by
  unfold taxable_base
  split
  · norm_num [BULK_DISCOUNT_RATE]; linarith
  · exact h

theorem calculate_tax_nonneg (inv : InvoiceRecord) (m : ℕ) (h : 0 ≤ inv.amount) :
    0 ≤ calculate_tax inv m :=
  round2_nonneg (mul_nonneg (taxable_base_nonneg h) (effective_rate_nonneg _ _ _))

theorem one_le_fdiv_thirty {d : ℤ} (h : 30 < d) : 1 ≤ Int.fdiv d 30 := by
  rw [Int.fdiv_eq_ediv d (by norm_num)]
  exact (Int.le_ediv_iff_mul_le (by norm_num)).mpr (by omega)

theorem late_fee_from_days_nonneg {amount : ℚ} (d : ℤ) (h : 0 ≤ amount) :
    0 ≤ late_fee_from_days amount d := by
  unfold late_fee_from_days
  split
  next hd =>
    have h1 : (1 : ℤ) ≤ Int.fdiv d 30 :=
      one_le_fdiv_thirty (by simpa [LATE_FEE_DAYS] using hd)
    have h2 : (0 : ℚ) ≤ (Int.fdiv d 30 : ℤ) := by exact_mod_cast le_trans zero_le_one h1
    exact round2_nonneg (mul_nonneg h (mul_nonneg (by norm_num [LATE_FEE_PERCENT]) h2))
  next => exact le_refl 0

theorem calculate_late_fee_nonneg (inv : InvoiceRecord) (now : Date)
    (h : 0 ≤ inv.amount) : 0 ≤ calculate_late_fee inv now := by
  unfold calculate_late_fee
  split
  · exact le_refl 0
  · exact late_fee_from_days_nonneg _ h

/-! ## Claim theorems -/

/-- C2: for every record, the tax rate resolved before the seasonal
surcharge follows strict precedence — a customer override (even 0) wins
regardless of state; otherwise a present state rate is used; otherwise the
table's DEFAULT entry. -/
theorem tax_rate_precedence (cid st : String) :
    (∀ r, lookup CUSTOMER_TAX_OVERRIDES cid = some r → resolved_rate cid st = r) ∧
    (lookup CUSTOMER_TAX_OVERRIDES cid = none →
      ∀ r, lookup STATE_TAX_RATES st = some r → resolved_rate cid st = r) ∧
    (lookup CUSTOMER_TAX_OVERRIDES cid = none → lookup STATE_TAX_RATES st = none →
      lookup STATE_TAX_RATES "DEFAULT" = some (resolved_rate cid st)) := by
  refine ⟨fun r h => ?_, fun hc r h => ?_, fun hc hs => ?_⟩
  · unfold resolved_rate; simp [h]
  · unfold resolved_rate; simp [hc, h]
  · unfold resolved_rate; simp [hc, hs]; rfl

/-- C2 witness: a zero override (CUST001) wins over the NY state rate; with
no override the NY rate applies; with neither, the DEFAULT rate applies. -/
theorem tax_rate_precedence_witness :
    resolved_rate "CUST001" "NY" = 0 ∧
    resolved_rate "NOBODY" "NY" = 8/100 ∧
    lookup STATE_TAX_RATES "DEFAULT" = some (resolved_rate "NOBODY" "ZZ") := by
  refine ⟨(tax_rate_precedence "CUST001" "NY").1 0 (by rfl),
    (tax_rate_precedence "NOBODY" "NY").2.1 (by rfl) (8/100) (by rfl),
    (tax_rate_precedence "NOBODY" "ZZ").2.2 (by rfl) (by rfl)⟩

/-- C3: inside the Q4 surcharge window (month ≥ 10) the effective rate is
the resolved (override/state/default) rate times the 1.02 multiplier, so
the surcharge applies uniformly after resolution, and the in-window rate is
the out-of-window rate times the multiplier. -/
theorem seasonal_surcharge_after_resolution (cid st : String) (mIn mOut : ℕ)
    (hin : 10 ≤ mIn) (hout : mOut < 10) :
    effective_rate cid st mIn = resolved_rate cid st * (102/100) ∧
    effective_rate cid st mIn = effective_rate cid st mOut * (102/100) := by
  unfold effective_rate
  rw [if_pos hin, if_neg (by omega)]
  exact ⟨rfl, rfl⟩

/-- C3 witness: November vs. May, for an override customer and for a plain
state-rate customer. -/
theorem seasonal_surcharge_after_resolution_witness :
    effective_rate "CUST447" "NY" 11 = resolved_rate "CUST447" "NY" * (102/100) ∧
    effective_rate "NOBODY" "NY" 11 = effective_rate "NOBODY" "NY" 5 * (102/100) := by
  exact ⟨(seasonal_surcharge_after_resolution "CUST447" "NY" 11 5 (by norm_num)
      (by norm_num)).1,
    (seasonal_surcharge_after_resolution "NOBODY" "NY" 11 5 (by norm_num)
      (by norm_num)).2⟩

/-- C4: for a record amount (≥ MIN_INVOICE_AMOUNT, the parser invariant),
the late fee is exactly 0 whenever days late ≤ LATE_FEE_DAYS (30), and for
days late > 30 it equals round(amount * LATE_FEE_PERCENT * (days_late / 30
floored), 2), which is strictly positive. -/
theorem late_fee_threshold_spec (amount : ℚ) (d : ℤ)
    (hmin : MIN_INVOICE_AMOUNT ≤ amount) :
    (d ≤ LATE_FEE_DAYS → late_fee_from_days amount d = 0) ∧
    (LATE_FEE_DAYS < d →
      late_fee_from_days amount d =
        round2 (amount * LATE_FEE_PERCENT * ((Int.fdiv d 30 : ℤ) : ℚ)) ∧
      0 < late_fee_from_days amount d) := by
  constructor
  · intro hle
    unfold late_fee_from_days
    rw [if_neg (by omega)]
  · intro hgt
    have h30 : (30 : ℤ) < d := by simpa [LATE_FEE_DAYS] using hgt
    have hm : (1 : ℤ) ≤ Int.fdiv d 30 := one_le_fdiv_thirty h30
    have hmq : (1 : ℚ) ≤ ((Int.fdiv d 30 : ℤ) : ℚ) := by exact_mod_cast hm
    have hamt : (25 : ℚ) ≤ amount := by simpa [MIN_INVOICE_AMOUNT] using hmin
    have harg : (3/8 : ℚ) ≤ amount * (LATE_FEE_PERCENT * ((Int.fdiv d 30 : ℤ) : ℚ)) := by
      unfold LATE_FEE_PERCENT
      nlinarith
    constructor
    · unfold late_fee_from_days
      rw [if_pos hgt, mul_assoc]
    · unfold late_fee_from_days
      rw [if_pos hgt]
      exact round2_pos harg

/-- C4 witness: amount 200, 30 days late ⇒ fee 0; 31 days late ⇒ fee
round(200 * 0.015 * 1, 2) = 3, which is positive. -/
theorem late_fee_threshold_spec_witness :
    late_fee_from_days 200 30 = 0 ∧
    late_fee_from_days 200 31 = 3 ∧ (0:ℚ) < 3 := by
  have h30 := late_fee_threshold_spec 200 30 (by norm_num [MIN_INVOICE_AMOUNT])
  have h31 := late_fee_threshold_spec 200 31 (by norm_num [MIN_INVOICE_AMOUNT])
  refine ⟨h30.1 (by norm_num [LATE_FEE_DAYS]), ?_, by norm_num⟩
  rw [(h31.2 (by norm_num [LATE_FEE_DAYS])).1]
  have harg : (200:ℚ) * LATE_FEE_PERCENT * ((Int.fdiv 31 30 : ℤ) : ℚ) = 3 := by
    norm_num [LATE_FEE_PERCENT, show Int.fdiv 31 30 = 1 from rfl]
  rw [harg, round2_of_nonneg (by norm_num : (0:ℚ) ≤ 3)]
  rw [show ⌊(3:ℚ) * 100 + 1/2⌋ = 300 by norm_num [Int.floor_eq_iff]]
  norm_num

/-- C7: for a record amount (≥ MIN_INVOICE_AMOUNT), the taxable base is
the discounted `amount * (1 - BULK_DISCOUNT_RATE)` exactly when
`amount ≥ BULK_DISCOUNT_THRESHOLD` (so the boundary amount is discounted
and anything strictly below is unmodified), and the tax amount is
round(base * effective rate, 2). -/
theorem bulk_discount_boundary (inv : InvoiceRecord) (month : ℕ)
    (hmin : MIN_INVOICE_AMOUNT ≤ inv.amount) :
    (taxable_base inv.amount = inv.amount * (1 - BULK_DISCOUNT_RATE) ↔
      BULK_DISCOUNT_THRESHOLD ≤ inv.amount) ∧
    calculate_tax inv month =
      round2 (taxable_base inv.amount *
        effective_rate inv.customer_id inv.state month) := by
  refine ⟨⟨fun h => ?_, fun h => ?_⟩, rfl⟩
  · by_contra hlt
    unfold taxable_base at h
    rw [if_neg hlt] at h
    have hz : inv.amount = 0 := by
      have := h
      norm_num [BULK_DISCOUNT_RATE] at this
      linarith
    have h25 : (25:ℚ) ≤ inv.amount := by simpa [MIN_INVOICE_AMOUNT] using hmin
    rw [hz] at h25
    norm_num at h25
  · unfold taxable_base
    rw [if_pos h]

/-- C7 witness: an amount exactly at the 10000 threshold is discounted; an
amount one cent below (9999.99) is not. -/
theorem bulk_discount_boundary_witness :
    taxable_base (10000:ℚ) = 10000 * (1 - BULK_DISCOUNT_RATE) ∧
    ¬ taxable_base (999999/100 : ℚ) = (999999/100 : ℚ) * (1 - BULK_DISCOUNT_RATE) := by
  have hAt := bulk_discount_boundary
    ⟨"C1", "N", "A", "T", "CA", "Z", 10000, "01/01/2021", "01/01/2021", ""⟩ 5
    (by norm_num [MIN_INVOICE_AMOUNT])
  have hBelow := bulk_discount_boundary
    ⟨"C1", "N", "A", "T", "CA", "Z", 999999/100, "01/01/2021", "01/01/2021", ""⟩ 5
    (by norm_num [MIN_INVOICE_AMOUNT])
  refine ⟨hAt.1.mpr (by norm_num [BULK_DISCOUNT_THRESHOLD]), fun h => ?_⟩
  have := hBelow.1.mp h
  norm_num [BULK_DISCOUNT_THRESHOLD] at this

/-- C6: for every computed valuation of a record amount ≥
MIN_INVOICE_AMOUNT (the parser invariant; the configured rates are all
non-negative), the total equals amount + tax + late fee exactly, and tax,
late fee and total are each non-negative. -/
theorem valuation_total_spec (inv : InvoiceRecord) (month : ℕ) (now : Date)
    (hmin : MIN_INVOICE_AMOUNT ≤ inv.amount) :
    invoice_total inv (calculate_tax inv month) (calculate_late_fee inv now) =
      inv.amount + calculate_tax inv month + calculate_late_fee inv now ∧
    0 ≤ calculate_tax inv month ∧
    0 ≤ calculate_late_fee inv now ∧
    0 ≤ invoice_total inv (calculate_tax inv month) (calculate_late_fee inv now) := by
  have h0 : (0:ℚ) ≤ inv.amount := le_trans (by norm_num [MIN_INVOICE_AMOUNT]) hmin
  have htax := calculate_tax_nonneg inv month h0
  have hfee := calculate_late_fee_nonneg inv now h0
  refine ⟨rfl, htax, hfee, ?_⟩
  unfold invoice_total
  linarith

/-- C6 witness: scenario-B record (NY, amount 200, no override), evaluated
in May against a due date 40 days earlier: total = 200 + 16 + 3 = 219. -/
theorem valuation_total_spec_witness :
    0 ≤ calculate_tax
        ⟨"CUSTXYZ", "N", "A", "T", "NY", "Z", 200, "01/01/2021", "01/01/2021", ""⟩ 5 ∧
    0 ≤ calculate_late_fee
        ⟨"CUSTXYZ", "N", "A", "T", "NY", "Z", 200, "01/01/2021", "01/01/2021", ""⟩
        ⟨2021, 2, 10⟩ := by
  have h := valuation_total_spec
    ⟨"CUSTXYZ", "N", "A", "T", "NY", "Z", 200, "01/01/2021", "01/01/2021", ""⟩
    5 ⟨2021, 2, 10⟩ (by norm_num [MIN_INVOICE_AMOUNT])
  exact ⟨h.2.1, h.2.2.1⟩

/-- C8: the Valuation Engine degrades instead of raising — if none of the
three date formats (tried in order `%m/%d/%Y`, `%Y-%m-%d`, `%m-%d-%Y`)
parses the due date, the late fee is 0; and a state with no rate entry
(and no customer override) resolves to the DEFAULT rate. -/
theorem valuation_degrades_safely (inv : InvoiceRecord) (now : Date) :
    (strptime_mdY_slash inv.due_date = none →
      strptime_Ymd_dash inv.due_date = none →
      strptime_mdY_dash inv.due_date = none →
      calculate_late_fee inv now = 0) ∧
    (lookup CUSTOMER_TAX_OVERRIDES inv.customer_id = none →
      lookup STATE_TAX_RATES inv.state = none →
      lookup STATE_TAX_RATES "DEFAULT" =
        some (resolved_rate inv.customer_id inv.state)) := by
  constructor
  · intro h1 h2 h3
    unfold calculate_late_fee parse_due_date
    simp [h1, h2, h3]
  · intro hc hs
    unfold resolved_rate
    simp [hc, hs]
    rfl

/-- C8 witness: a record with garbage due date and unknown state gets late
fee 0 and the DEFAULT tax rate; a two-digit-year due date (`"1/1/21"`),
which every strptime format rejects for its non-4-digit `%Y`, also gets
late fee 0. -/
theorem valuation_degrades_safely_witness :
    calculate_late_fee
      ⟨"NOBODY", "N", "A", "T", "ZZ", "Z", 100, "01/01/2021", "not-a-date", ""⟩
      ⟨2021, 2, 10⟩ = 0 ∧
    calculate_late_fee
      ⟨"NOBODY", "N", "A", "T", "ZZ", "Z", 100, "01/01/2021", "1/1/21", ""⟩
      ⟨2021, 2, 10⟩ = 0 ∧
    lookup STATE_TAX_RATES "DEFAULT" = some (resolved_rate "NOBODY" "ZZ") := by
  have h := valuation_degrades_safely
    ⟨"NOBODY", "N", "A", "T", "ZZ", "Z", 100, "01/01/2021", "not-a-date", ""⟩
    ⟨2021, 2, 10⟩
  have h2 := valuation_degrades_safely
    ⟨"NOBODY", "N", "A", "T", "ZZ", "Z", 100, "01/01/2021", "1/1/21", ""⟩
    ⟨2021, 2, 10⟩
  exact ⟨h.1 (by rfl) (by rfl) (by rfl), h2.1 (by rfl) (by rfl) (by rfl),
    h.2 (by rfl) (by rfl)⟩

theorem parse_row_min_amount {row : List String} {inv : InvoiceRecord}
    (h : parse_row row = RowResult.ok inv) : MIN_INVOICE_AMOUNT ≤ inv.amount := by
  unfold parse_row at h
  split at h
  next => exact absurd h (by simp)
  next =>
    split at h
    next => exact absurd h (by simp)
    next amt hpf =>
      simp only at h
      split at h
      next => exact absurd h (by simp)
      next hge =>
        cases h
        exact le_of_not_lt hge

theorem parse_rows_min_amount :
    ∀ (rows : List (List String)) (n : ℕ) (inv : InvoiceRecord),
      inv ∈ (parse_rows rows n).1 → MIN_INVOICE_AMOUNT ≤ inv.amount := by
  intro rows
  induction rows with
  | nil =>
    intro n inv h
    simp [parse_rows] at h
  | cons row rest ih =>
    intro n inv h
    simp only [parse_rows] at h
    cases hr : parse_row row with
    | ok i =>
      rw [hr] at h
      simp only at h
      rcases List.mem_cons.mp h with h1 | h2
      · rw [h1]; exact parse_row_min_amount hr
      · exact ih (n + 1) inv h2
    | reject r =>
      rw [hr] at h
      exact ih (n + 1) inv h

/-- Header and rows used to instantiate the batch-level claims. -/
def sampleHeader : String :=
  "customer_id,customer_name,address,city,state,zip,amount,invoice_date,due_date,items"

def sampleGoodRow : String :=
  "CUST447,Bob,1 Main St,Town,CA,90210,100.00,01/01/2021,01/01/2021,"

def sampleGoodRecord : InvoiceRecord :=
  ⟨"CUST447", "Bob", "1 Main St", "Town", "CA", "90210", 100,
    "01/01/2021", "01/01/2021", ""⟩

/-- C9: a row with fewer than 10 columns is rejected with
InsufficientColumns, recorded with its row number, and the remaining rows
of the source still produce exactly the records (and valuations) they
would produce on their own — one bad row never aborts the batch. -/
theorem insufficient_columns_isolated (bad : List String)
    (rest : List (List String)) (n month : ℕ) (now : Date)
    (h : bad.length < 10) :
    (parse_rows (bad :: rest) n).1 = (parse_rows rest (n + 1)).1 ∧
    (parse_rows (bad :: rest) n).2 =
      (n, RejectReason.InsufficientColumns) :: (parse_rows rest (n + 1)).2 ∧
    ((parse_rows (bad :: rest) n).1.map
        (fun i => (calculate_tax i month, calculate_late_fee i now))) =
      ((parse_rows rest (n + 1)).1.map
        (fun i => (calculate_tax i month, calculate_late_fee i now))) := by
  have hb : parse_row bad = RowResult.reject RejectReason.InsufficientColumns := by
    unfold parse_row; rw [if_pos h]
  refine ⟨?_, ?_, ?_⟩ <;> simp [parse_rows, hb]

/-- C9 witness: a 6-column row followed by a well-formed row — the bad row
is logged as row 0 with InsufficientColumns and the good row still yields
its record. -/
theorem insufficient_columns_isolated_witness :
    (parse_rows [["a", "b", "c", "d", "e", "f"],
        split_row ',' sampleGoodRow] 0).1 =
      (parse_rows [split_row ',' sampleGoodRow] 1).1 ∧
    (parse_rows [["a", "b", "c", "d", "e", "f"],
        split_row ',' sampleGoodRow] 0).2 =
      (0, RejectReason.InsufficientColumns) ::
        (parse_rows [split_row ',' sampleGoodRow] 1).2 ∧
    (parse_rows [split_row ',' sampleGoodRow] 1).1 = [sampleGoodRecord] := by
  have h := insufficient_columns_isolated ["a", "b", "c", "d", "e", "f"]
    [split_row ',' sampleGoodRow] 0 5 ⟨2021, 2, 10⟩ (by decide)
  exact ⟨h.1, h.2.1, by with_unfolding_all rfl⟩

/-- C10: every record returned by reading a batch source satisfies
`amount ≥ MIN_INVOICE_AMOUNT` — below-minimum rows are rejected at parse
time and never constructed into the result, so the Valuation Engine's
precondition holds for every record it receives. -/
theorem parsed_records_min_amount (source : Option (List String))
    (invs : List InvoiceRecord) (log : List (ℕ × RejectReason))
    (h : process_csv_file source = Except.ok (invs, log)) :
    ∀ inv ∈ invs, MIN_INVOICE_AMOUNT ≤ inv.amount := by
  intro inv hmem
  rcases source with _ | lines
  · cases h
  · rcases lines with _ | ⟨first, rest⟩
    · cases h
    · simp only [process_csv_file] at h
      injection h with h1
      have h2 : (parse_rows (rest.map (split_row (detect_delimiter first))) 0).1 = invs :=
        congrArg Prod.fst h1
      exact parse_rows_min_amount _ 0 inv (h2 ▸ hmem)

/-- C10 witness: the record parsed from the sample source has amount 100 ≥
MIN_INVOICE_AMOUNT. -/
theorem parsed_records_min_amount_witness :
    MIN_INVOICE_AMOUNT ≤ sampleGoodRecord.amount := by
  have h := parsed_records_min_amount (some [sampleHeader, sampleGoodRow])
    [sampleGoodRecord] [] (by with_unfolding_all rfl)
  exact h sampleGoodRecord (by simp)

/-- C5 counterexample: the amount field `"-5.00"` does not parse as a
non-negative number, yet the row is rejected with BelowMinimum (a printed
warning), not InvalidAmount — `float()` accepts negative numbers, and the
negative value is then caught by the minimum-amount check. -/
theorem negative_amount_is_below_minimum :
    parse_float "-5.00" = some (-5) ∧
    parse_row ["C9", "Name", "Addr", "City", "ca", "99999", "-5.00",
        "01/01/2021", "01/01/2021", ""] =
      RowResult.reject RejectReason.BelowMinimum ∧
    RejectReason.BelowMinimum ≠ RejectReason.InvalidAmount := by
  refine ⟨by with_unfolding_all rfl, by with_unfolding_all rfl, by decide⟩

/-- C5 amended: a row whose amount field fails to parse as a number at all
is rejected with InvalidAmount (logged as an error); a row whose amount
parses — including to a negative value — but is below MIN_INVOICE_AMOUNT
is rejected with BelowMinimum (a warning, not logged as an error); in both
cases the batch continues with the next row. -/
theorem amount_rejection_paths (row : List String) (hlen : ¬ row.length < 10) :
    (parse_float (row.getD 6 "") = none →
      parse_row row = RowResult.reject RejectReason.InvalidAmount ∧
      logged_as_error RejectReason.InvalidAmount = true) ∧
    (∀ a, parse_float (row.getD 6 "") = some a → a < MIN_INVOICE_AMOUNT →
      parse_row row = RowResult.reject RejectReason.BelowMinimum ∧
      logged_as_error RejectReason.BelowMinimum = false) ∧
    (∀ rest n r, parse_row row = RowResult.reject r →
      parse_rows (row :: rest) n =
        ((parse_rows rest (n + 1)).1, (n, r) :: (parse_rows rest (n + 1)).2)) := by
  refine ⟨fun hpf => ⟨?_, rfl⟩, fun a hpf hlt => ⟨?_, rfl⟩, fun rest n r hr => ?_⟩
  · unfold parse_row
    rw [if_neg hlen, hpf]
  · unfold parse_row
    rw [if_neg hlen, hpf]
    simp only
    rw [if_pos hlt]
  · simp [parse_rows, hr]

/-- C5 amended witness: an unparseable amount is InvalidAmount and
error-logged; a parsed 10.00 (below the 25.00 minimum) is BelowMinimum and
only warned; both leave the remaining rows processed unchanged. -/
theorem amount_rejection_paths_witness :
    parse_row ["C9", "N", "A", "T", "ca", "Z", "abc",
        "01/01/2021", "01/01/2021", ""] =
      RowResult.reject RejectReason.InvalidAmount ∧
    parse_row ["C9", "N", "A", "T", "ca", "Z", "10.00",
        "01/01/2021", "01/01/2021", ""] =
      RowResult.reject RejectReason.BelowMinimum ∧
    parse_rows [["C9", "N", "A", "T", "ca", "Z", "abc",
        "01/01/2021", "01/01/2021", ""], split_row ',' sampleGoodRow] 0 =
      ((parse_rows [split_row ',' sampleGoodRow] 1).1,
        (0, RejectReason.InvalidAmount) ::
          (parse_rows [split_row ',' sampleGoodRow] 1).2) := by
  have hBad := amount_rejection_paths
    ["C9", "N", "A", "T", "ca", "Z", "abc", "01/01/2021", "01/01/2021", ""]
    (by decide)
  have hLow := amount_rejection_paths
    ["C9", "N", "A", "T", "ca", "Z", "10.00", "01/01/2021", "01/01/2021", ""]
    (by decide)
  have h1 := (hBad.1 (by rfl)).1
  refine ⟨h1, (hLow.2.1 10 (by with_unfolding_all rfl) (by norm_num [MIN_INVOICE_AMOUNT])).1, ?_⟩
  exact hBad.2.2 [split_row ',' sampleGoodRow] 0 RejectReason.InvalidAmount h1

/-- C1 counterexample: with an unreadable source followed by a readable
source holding one valid record, the run aborts with the read failure
(`sys.exit(1)`); the second source's record — which that source yields on
its own — is never processed, contradicting "the run continues processing
the remaining batch sources". -/
theorem unreadable_source_aborts_run :
    (process_csv_file (some [sampleHeader, sampleGoodRow])).map
        (fun p => p.1.length) = Except.ok 1 ∧
    run_batches [none, some [sampleHeader, sampleGoodRow]] =
      Except.error "Cannot read file" := by
  refine ⟨by with_unfolding_all rfl, by rfl⟩

/-- C1 amended: a batch source that cannot be opened or read is fatal to
the entire run, not just to that batch — the failure is logged and the
script exits with status 1, so the failing source contributes no records
and no remaining batch source is processed. -/
theorem unreadable_source_fatal (rest : List (Option (List String))) :
    process_csv_file none = Except.error "Cannot read file" ∧
    run_batches (none :: rest) = Except.error "Cannot read file" := by
  exact ⟨rfl, rfl⟩

end Invoice
